import Mathlib

/-!
Verification of the request-gateway layer of the sei-sorcerer repository.

The subject is the gateway client in src/lib/sei-mcp-client.ts (error classes,
HTTPMCPTransport, RateLimiter, SeiMCPClient, QueryParser) together with the
recoverability classifier ErrorUtils.isRecoverableError from the utility module.
Times are modelled as natural-number milliseconds, payloads as strings, and the
single-threaded cooperative scheduling of the JS runtime as explicit state
passing; each async function is split at its suspension points where a claim
depends on interleaving.
-/

namespace SeiSorcerer

/-- Error taxonomy of sei-mcp-client.ts (lines 69-89).  The constructor
`generic` stands for a plain JS `Error` that is none of the three MCP error
classes (the unsupported-operation methods throw such plain errors). -/
inductive MCPError where
  | connection (msg : String)
  | request (msg : String) (statusCode : Option Nat)
  | timeout (msg : String)
  | generic (msg : String)
deriving DecidableEq

/-- Character-list version of JS String.startsWith for the pattern argument. -/
def leadsWith : List Char → List Char → Bool
  | [], _ => true
  | _ :: _, [] => false
  | a :: as, b :: bs => a == b && leadsWith as bs

/-- Character-list version of JS String.includes: the pattern occurs as a
contiguous substring. -/
def includesChars (pat : List Char) : List Char → Bool
  | [] => leadsWith pat []
  | c :: rest => leadsWith pat (c :: rest) || includesChars pat rest

/-- JS String.includes on strings. -/
def strIncludes (s pat : String) : Bool :=
  includesChars pat.toList s.toList

/-- JS String.toLowerCase (ASCII case folding suffices for the messages in
the source). -/
def lowerStr (s : String) : String :=
  String.mk (s.toList.map Char.toLower)

/-- ErrorUtils.isRecoverableError (utility module, lines 583-601): timeouts
and connection errors are recoverable; a request error is recoverable iff its
lowercased message includes "rate limit", "temporary" or "timeout"; anything
else is not. -/
def isRecoverableError : MCPError → Bool
  | .timeout _ => true
  | .connection _ => true
  | .request msg _ =>
      let m := lowerStr msg
      strIncludes m "rate limit" || strIncludes m "temporary" || strIncludes m "timeout"
  | .generic _ => false

/-! ## Response cache (SeiMCPClient.getCachedData / setCachedData, lines 313-331)

The JS `Map` is modelled as an association list whose most recent binding for a
key comes first; `set` replaces the binding for the key, `delete` removes it. -/

/-- One cache entry: raw payload plus insertion timestamp (ms). -/
structure CacheEntry where
  data : String
  timestamp : Nat
deriving DecidableEq

/-- The cache map. -/
abbrev Cache := List (String × CacheEntry)

/-- Map.get: the binding for a key, if any. -/
def cacheLookup : Cache → String → Option CacheEntry
  | [], _ => none
  | (k, e) :: rest, key => if k == key then some e else cacheLookup rest key

/-- Map.delete: remove the binding for a key. -/
def cacheErase (cache : Cache) (key : String) : Cache :=
  cache.filter (fun p => p.1 != key)

/-- SeiMCPClient.getCachedData (lines 313-324): a missing key is a miss; an
entry whose age strictly exceeds the configured TTL is deleted and reported as
a miss; otherwise the stored payload is returned.  Returns the result together
with the cache after the lazy-expiry side effect. -/
def getCachedData (cache : Cache) (key : String) (now ttl : Nat) :
    Option String × Cache :=
  match cacheLookup cache key with
  | none => (none, cache)
  | some e =>
      if now - e.timestamp > ttl then (none, cacheErase cache key)
      else (some e.data, cache)

/-- SeiMCPClient.setCachedData (lines 326-331): store the payload under the
key with the current timestamp. -/
def setCachedData (cache : Cache) (key : String) (data : String) (now : Nat) :
    Cache :=
  (key, ⟨data, now⟩) :: cacheErase cache key

/-! ## Rate limiter (class RateLimiter, lines 204-223) -/

/-- The one-minute window the SeiMCPClient constructor passes to RateLimiter
(line 237). -/
def rateWindowMs : Nat := 60000

/-- RateLimiter state: recorded request timestamps plus configuration. -/
structure RateLimiter where
  requests : List Nat
  maxRequests : Nat
  windowMs : Nat
deriving DecidableEq

/-- RateLimiter.canMakeRequest (lines 214-218): prune timestamps outside the
trailing window, then admit iff the remaining count is strictly below the
quota.  Returns the decision together with the pruned state. -/
def canMakeRequest (rl : RateLimiter) (now : Nat) : Bool × RateLimiter :=
  let pruned := rl.requests.filter (fun t => now - t < rl.windowMs)
  (decide (pruned.length < rl.maxRequests), { rl with requests := pruned })

/-- RateLimiter.recordRequest (lines 220-222): push the current timestamp. -/
def recordRequest (rl : RateLimiter) (now : Nat) : RateLimiter :=
  { rl with requests := rl.requests ++ [now] }

/-- Record a sequence of timestamps in order (repeated recordRequest calls). -/
def recordAll (rl : RateLimiter) (times : List Nat) : RateLimiter :=
  times.foldl recordRequest rl

theorem recordAll_requests (rl : RateLimiter) (times : List Nat) :
    (recordAll rl times).requests = rl.requests ++ times := by
  induction times generalizing rl with
  | nil => simp [recordAll]
  | cons t ts ih =>
      simp [recordAll] at ih ⊢
      rw [ih]
      simp [recordRequest]

theorem recordAll_maxRequests (rl : RateLimiter) (times : List Nat) :
    (recordAll rl times).maxRequests = rl.maxRequests := by
  induction times generalizing rl with
  | nil => rfl
  | cons t ts ih => simpa [recordAll, recordRequest] using ih _

theorem recordAll_windowMs (rl : RateLimiter) (times : List Nat) :
    (recordAll rl times).windowMs = rl.windowMs := by
  induction times generalizing rl with
  | nil => rfl
  | cons t ts ih => simpa [recordAll, recordRequest] using ih _

/-! ## Transport (class HTTPMCPTransport, lines 92-201)

HTTPMCPTransport.request performs one fetch.  Its observable input is the
outcome of that fetch: either a network-level failure or an HTTP response,
modelled below.  The JSON body's error field is `Option (Option String)`:
outer `some` means the error field is present, the inner option is its
(possibly absent) message. -/

/-- The HTTP response as transportHttpRequest observes it. -/
structure JsonRpcResponse where
  ok : Bool
  status : Nat
  statusText : String
  error : Option (Option String)
  result : String
deriving DecidableEq

/-- Outcome of the fetch performed by HTTPMCPTransport.request. -/
inductive FetchOutcome where
  | response (r : JsonRpcResponse)
  | networkFailure (msg : String)
deriving DecidableEq

/-- The fallback in line 178: result.error.message with the literal default
when the message is absent or empty (JS falsy). -/
def jsonRpcErrorMessage : Option String → String
  | none => "MCP request error"
  | some m => if m == "" then "MCP request error" else m

/-- HTTPMCPTransport.request (lines 137-193).  Without a session it raises a
connection error; a fetch-level failure is wrapped as a request error; a
non-2xx response raises a request error carrying the status code; a JSON-RPC
error field raises a request error with the server-supplied message (or the
default); otherwise the result field is returned verbatim. -/
def transportHttpRequest (sessionId : Option String) (outcome : FetchOutcome) :
    Except MCPError String :=
  match sessionId with
  | none => .error (.connection "Not connected to MCP server")
  | some _ =>
      match outcome with
      | .networkFailure msg =>
          .error (.request ("MCP request failed: " ++ msg) none)
      | .response r =>
          if r.ok then
            match r.error with
            | some e => .error (.request (jsonRpcErrorMessage e) none)
            | none => .ok r.result
          else
            .error (.request
              ("MCP server request failed: " ++ toString r.status ++ " " ++ r.statusText)
              (some r.status))

/-! ## Connection establishment (ensureConnected lines 249-268, connect 270-295)

Both functions are async; their behaviour under concurrent callers is fixed by
the cooperative scheduler: each call runs atomically from its entry to its
first await.  `ensureConnectedStep` is that synchronous prefix.  A connection
attempt suspends exactly once, at the health probe inside
HTTPMCPTransport.connect (line 109); everything before the probe (assigning
this.transport, storing this.connecting) has already happened when any other
caller runs.  Attempts are named by numeric ids standing for the promise
identity of this.connecting. -/

/-- The connection-related fields of SeiMCPClient (lines 226-231). -/
structure ConnState where
  connected : Bool
  hasTransport : Bool
  connecting : Option Nat
deriving DecidableEq

/-- What a caller of ensureConnected is left doing after its synchronous
prefix: already satisfied, or awaiting a given attempt. -/
inductive ConnPlan where
  | alreadyConnected
  | awaits (attempt : Nat)
deriving DecidableEq

/-- Synchronous prefix of ensureConnected (lines 249-266): return at once when
connected with a live transport; join the in-flight attempt when one is
stored; otherwise start connect() — which synchronously assigns a fresh
transport and stores the new in-flight promise before suspending at the
health probe.  The Bool records whether a new attempt (hence a new liveness
probe) was started by this caller. -/
def ensureConnectedStep (s : ConnState) (fresh : Nat) :
    ConnState × ConnPlan × Bool :=
  if s.connected && s.hasTransport then (s, .alreadyConnected, false)
  else
    match s.connecting with
    | some a => (s, .awaits a, false)
    | none =>
        ({ s with hasTransport := true, connecting := some fresh },
         .awaits fresh, true)

/-- Continuation of connect() once the probe resolves (lines 278-294): on
success mark connected; on failure null the transport and mark disconnected,
rethrowing. -/
def resolveAttempt (s : ConnState) (success : Bool) : ConnState :=
  if success then { s with connected := true }
  else { s with connected := false, hasTransport := false }

/-- Continuation of the caller that started the attempt (lines 266-267):
`this.connecting = null` runs only when `await this.connecting` did not
throw, i.e. only on success — on failure the exception propagates first and
the assignment is skipped. -/
def starterResume (s : ConnState) (success : Bool) : ConnState :=
  if success then { s with connecting := none } else s

/-- A whole attempt as the starter experiences it: probe resolution followed
by the starter's resumption. -/
def runAttempt (s : ConnState) (success : Bool) : ConnState :=
  starterResume (resolveAttempt s success) success

/-- N callers entering ensureConnected back to back while the client is
suspended (none of the started attempts has resolved yet): each runs its
synchronous prefix in arrival order.  Returns the final state, each caller's
plan, and how many attempts (liveness probes) were started. -/
def processCallers (s : ConnState) (fresh : Nat) : Nat → ConnState × List ConnPlan × Nat
  | 0 => (s, [], 0)
  | n + 1 =>
      let step := ensureConnectedStep s fresh
      let fresh1 := if step.2.2 then fresh + 1 else fresh
      let rest := processCallers step.1 fresh1 n
      (rest.1, step.2.1 :: rest.2.1, (if step.2.2 then 1 else 0) + rest.2.2)

/-- The connection outcome a caller observes, given the outcome of each
attempt: a joiner or starter of attempt a observes the resolution of a;
an already-connected caller awaits nothing. -/
def observeOutcome (env : Nat → Bool) : ConnPlan → Option Bool
  | .alreadyConnected => none
  | .awaits a => some (env a)

/-! ## Gateway client request pipeline (makeRequest, lines 342-406)

Sequential model: the call runs to completion before the next one starts (the
interleaving-sensitive part of connection establishment is modelled above).
The downstream world enters as parameters: the current time, whether a fresh
connection attempt would succeed, and the transport's answer for this
dispatch.  The final Nat counts how many times HTTPMCPTransport.request was
dispatched during the call (0 or 1). -/

/-- Rate-limit and cache configuration (config.ts rateLimit block). -/
structure RateConfig where
  maxRequestsPerMinute : Nat
  cacheTTL : Nat
deriving DecidableEq

/-- The mutable fields of SeiMCPClient relevant to makeRequest. -/
structure ClientState where
  cache : Cache
  requests : List Nat
  connected : Bool
  hasTransport : Bool
deriving DecidableEq

/-- JS truthiness for the cached payload (line 354 tests `if (cached)`,
so an empty-string payload is treated as a miss). -/
def truthyStr (s : String) : Bool := s != ""

/-- The dispatch-and-cache tail of makeRequest (lines 386-397): perform the
transport request; on success store the result when a cache key was given. -/
def dispatchRequest (st : ClientState) (cacheKey : Option String) (now : Nat)
    (transportResult : Except MCPError String) :
    Except MCPError String × ClientState × Nat :=
  match transportResult with
  | .ok v =>
      let cache2 :=
        match cacheKey with
        | some k => setCachedData st.cache k v now
        | none => st.cache
      (.ok v, { st with cache := cache2 }, 1)
  | .error e => (.error e, st, 1)

/-- SeiMCPClient.makeRequest (lines 342-406): cache probe (only when a cache
key was supplied, and a falsy cached payload is ignored), then rate-limit
admission, then recordRequest, then ensureConnected (sequential path: no
attempt is in flight), then the transport dispatch with caching of a
successful result. -/
def makeRequest (cfg : RateConfig) (st : ClientState) (now : Nat)
    (cacheKey : Option String) (connectOk : Bool)
    (transportResult : Except MCPError String) :
    Except MCPError String × ClientState × Nat :=
  let probe : Option String × Cache :=
    match cacheKey with
    | some k => getCachedData st.cache k now cfg.cacheTTL
    | none => (none, st.cache)
  let hit : Option String :=
    match probe.1 with
    | some v => if truthyStr v then some v else none
    | none => none
  match hit with
  | some v => (.ok v, { st with cache := probe.2 }, 0)
  | none =>
      let st1 := { st with cache := probe.2 }
      let pruned := st1.requests.filter (fun t => now - t < rateWindowMs)
      if pruned.length < cfg.maxRequestsPerMinute then
        let st2 := { st1 with requests := pruned ++ [now] }
        if st2.connected && st2.hasTransport then
          dispatchRequest st2 cacheKey now transportResult
        else if connectOk then
          dispatchRequest { st2 with connected := true, hasTransport := true }
            cacheKey now transportResult
        else
          (.error (.connection "Failed to connect to MCP server"),
           { st2 with connected := false, hasTransport := false }, 0)
      else
        (.error (.request "Rate limit exceeded. Please try again later." none),
         { st1 with requests := pruned }, 0)

/-- SeiMCPClient.getWalletBalance (lines 459-461): delegates to makeRequest
with operation get_balance and NO cache key (the optional third argument is
not passed). -/
def getWalletBalance (cfg : RateConfig) (st : ClientState) (now : Nat)
    (connectOk : Bool) (transportResult : Except MCPError String)
    (address network : String) :
    Except MCPError String × ClientState × Nat :=
  let _op := "get_balance"
  let _params := "address=" ++ address ++ ";network=" ++ network
  makeRequest cfg st now none connectOk transportResult

/-- SeiMCPClient.transferSei (lines 542-544): delegates to makeRequest with
operation transfer_sei and no cache key. -/
def transferSei (cfg : RateConfig) (st : ClientState) (now : Nat)
    (connectOk : Bool) (transportResult : Except MCPError String)
    (toAddr amount network : String) :
    Except MCPError String × ClientState × Nat :=
  let _op := "transfer_sei"
  let _params := "to=" ++ toAddr ++ ";amount=" ++ amount ++ ";network=" ++ network
  makeRequest cfg st now none connectOk transportResult

/-! ## Unsupported operations (lines 570-581) -/

/-- Message thrown by getWalletTransactions (line 572). -/
def walletTxsUnsupportedMsg : String :=
  "Wallet transaction history is not yet implemented in the official Sei MCP server. Use get_transaction for specific transaction details."

/-- Message thrown by getTokenFlows (line 576). -/
def tokenFlowsUnsupportedMsg : String :=
  "Token flow analysis is not yet implemented in the official Sei MCP server. Use get_erc20_token_info for token metadata and read_contract for DEX data."

/-- Message thrown by getNFTHistory (line 580). -/
def nftHistoryUnsupportedMsg : String :=
  "NFT history is not yet implemented in the official Sei MCP server. Use get_erc721_token_metadata and check_nft_ownership for NFT data."

/-- SeiMCPClient.getWalletTransactions (lines 571-573): throws a plain Error
immediately; the Nat records that zero transport dispatches occur. -/
def getWalletTransactions (_address _timeframe : String) :
    Except MCPError String × Nat :=
  (.error (.generic walletTxsUnsupportedMsg), 0)

/-- SeiMCPClient.getTokenFlows (lines 575-577): throws a plain Error
immediately, zero transport dispatches. -/
def getTokenFlows (_token _dex _period : String) :
    Except MCPError String × Nat :=
  (.error (.generic tokenFlowsUnsupportedMsg), 0)

/-- SeiMCPClient.getNFTHistory (lines 579-581): throws a plain Error
immediately, zero transport dispatches. -/
def getNFTHistory (_collection _tokenId : String) :
    Except MCPError String × Nat :=
  (.error (.generic nftHistoryUnsupportedMsg), 0)

/-- The spec's flat three-kind error taxonomy (ConnectionError, RequestError,
TimeoutError), as a classifier to compare the code's behaviour against: a
plain Error is not one of the three kinds. -/
def isTypedGatewayError : MCPError → Bool
  | .connection _ => true
  | .request _ _ => true
  | .timeout _ => true
  | .generic _ => false

/-! ## QueryParser.extractWalletAddress (lines 596-610)

The two regex searches are modelled by a leftmost scan with a per-position
attempt function; both patterns use only literals and character-class
quantifiers, so the greedy leftmost-first JS match is exactly: the first
position where the pattern can match, taking as many class characters as
allowed. -/

/-- Character class [a-z0-9]. -/
def isLowerAlnum (c : Char) : Bool :=
  (97 ≤ c.toNat && c.toNat ≤ 122) || (48 ≤ c.toNat && c.toNat ≤ 57)

/-- Character class [a-fA-F0-9]. -/
def isHexDigit (c : Char) : Bool :=
  (48 ≤ c.toNat && c.toNat ≤ 57) || (97 ≤ c.toNat && c.toNat ≤ 102) ||
    (65 ≤ c.toNat && c.toNat ≤ 70)

/-- Try the pattern sei1[a-z0-9]\x7b38,58\x7d at the head of the text:
literal "sei1", then greedily 38 to 58 class characters. -/
def seiAttempt : List Char → Option (List Char)
  | 's' :: 'e' :: 'i' :: '1' :: rest =>
      let run := rest.takeWhile isLowerAlnum
      if 38 ≤ run.length then
        some ('s' :: 'e' :: 'i' :: '1' :: run.take 58)
      else none
  | _ => none

/-- Try the pattern 0x[a-fA-F0-9]\x7b40\x7d at the head of the text. -/
def evmAttempt : List Char → Option (List Char)
  | '0' :: 'x' :: rest =>
      let h := rest.take 40
      if h.length == 40 && h.all isHexDigit then some ('0' :: 'x' :: h)
      else none
  | _ => none

/-- Leftmost search: JS String.match without anchors tries every start
position from the left and returns the first successful match. -/
def scanMatch (attempt : List Char → Option (List Char)) :
    List Char → Option (List Char)
  | [] => attempt []
  | c :: rest =>
      match attempt (c :: rest) with
      | some m => some m
      | none => scanMatch attempt rest

/-- QueryParser.extractWalletAddress (lines 596-610): the sei1 pattern is
checked first (source comment line 597); only when it finds nothing is the
0x pattern tried; no match at all yields the not-found value. -/
def extractWalletAddress (query : String) : Option String :=
  match scanMatch seiAttempt query.toList with
  | some m => some (String.mk m)
  | none =>
      match scanMatch evmAttempt query.toList with
      | some m => some (String.mk m)
      | none => none

/-! ## Helper lemmas -/

theorem cacheLookup_setCachedData (cache : Cache) (k v : String) (t : Nat) :
    cacheLookup (setCachedData cache k v t) k = some ⟨v, t⟩ := by
  simp [setCachedData, cacheLookup]

theorem cacheLookup_cacheErase (cache : Cache) (k : String) :
    cacheLookup (cacheErase cache k) k = none := by
  induction cache with
  | nil => rfl
  | cons p rest ih =>
      obtain ⟨a, e⟩ := p
      by_cases h : a = k
      · simpa [cacheErase, List.filter_cons, h] using ih
      · simp only [cacheErase, List.filter_cons] at ih ⊢
        simp [h, cacheLookup, ih]

theorem dispatchRequest_count (st : ClientState) (ck : Option String) (now : Nat)
    (res : Except MCPError String) : (dispatchRequest st ck now res).2.2 = 1 := by
  cases res <;> rfl

/-! ## Claims about the response cache -/

/-- Claim C10: a cache lookup performed when the entry's age equals the TTL
exactly still returns the stored value and leaves the cache unchanged —
expiry uses the strict comparison age > TTL, so an entry becomes a miss only
strictly after the TTL. -/
theorem getCachedData_at_exact_ttl (cache : Cache) (k v : String) (t ttl : Nat) :
    getCachedData (setCachedData cache k v t) k (t + ttl) ttl
      = (some v, setCachedData cache k v t) := by
  simp [getCachedData, cacheLookup_setCachedData, Nat.add_sub_cancel_left]

/-- Claim C4: a get strictly before the TTL has elapsed since the set returns
the stored value; a get strictly after the TTL has elapsed is a miss, deletes
the entry, and every subsequent get of that key on the resulting cache is a
miss as well. -/
theorem cache_ttl_semantics (cache : Cache) (k v : String) (t ttl now now' : Nat) :
    (now - t < ttl →
      (getCachedData (setCachedData cache k v t) k now ttl).1 = some v) ∧
    (ttl < now' - t →
      (getCachedData (setCachedData cache k v t) k now' ttl).1 = none ∧
      ∀ later,
        (getCachedData (getCachedData (setCachedData cache k v t) k now' ttl).2
          k later ttl).1 = none) := by
  constructor
  · intro h
    have hne : ¬ (now - t > ttl) := by omega
    simp [getCachedData, cacheLookup_setCachedData, hne]
  · intro h
    have hgt : now' - t > ttl := h
    refine ⟨by simp [getCachedData, cacheLookup_setCachedData, hgt], fun later => ?_⟩
    have h2 : (getCachedData (setCachedData cache k v t) k now' ttl).2
        = cacheErase (setCachedData cache k v t) k := by
      simp [getCachedData, cacheLookup_setCachedData, hgt]
    rw [h2]
    simp [getCachedData, cacheLookup_cacheErase]

/-- Witness for C4 at a concrete key, payload and times. -/
theorem cache_ttl_semantics_witness :
    (getCachedData (setCachedData [] "k" "v" 0) "k" 5 10).1 = some "v" ∧
    (getCachedData (setCachedData [] "k" "v" 0) "k" 100 10).1 = none ∧
    (getCachedData (getCachedData (setCachedData [] "k" "v" 0) "k" 100 10).2
      "k" 101 10).1 = none :=
  ⟨(cache_ttl_semantics [] "k" "v" 0 10 5 100).1 (by decide),
   ((cache_ttl_semantics [] "k" "v" 0 10 5 100).2 (by decide)).1,
   ((cache_ttl_semantics [] "k" "v" 0 10 5 100).2 (by decide)).2 101⟩

/-! ## Claim about the rate limiter -/

/-- Claim C5: canMakeRequest prunes timestamps outside the window and admits
iff the remaining count is strictly below the quota; recording exactly quota
requests inside the window makes the next check reject; once the window has
fully elapsed a request is admitted again (for a positive quota); a quota of
zero rejects every request. -/
theorem rate_limiter_admission :
    (∀ (rl : RateLimiter) (now : Nat),
      (canMakeRequest rl now).1 = true ↔
        (rl.requests.filter (fun t => now - t < rl.windowMs)).length
          < rl.maxRequests) ∧
    (∀ (q w now : Nat) (times : List Nat),
      times.length = q → (∀ t ∈ times, now - t < w) →
      (canMakeRequest (recordAll ⟨[], q, w⟩ times) now).1 = false) ∧
    (∀ (q w now : Nat) (times : List Nat),
      0 < q → (∀ t ∈ times, w ≤ now - t) →
      (canMakeRequest (recordAll ⟨[], q, w⟩ times) now).1 = true) ∧
    (∀ (rl : RateLimiter) (now : Nat), rl.maxRequests = 0 →
      (canMakeRequest rl now).1 = false) := by
  refine ⟨fun rl now => by simp [canMakeRequest], ?_, ?_, ?_⟩
  · intro q w now times hlen hin
    have hreq : (recordAll ⟨[], q, w⟩ times).requests = times := by
      simpa using recordAll_requests ⟨[], q, w⟩ times
    have hmax : (recordAll ⟨[], q, w⟩ times).maxRequests = q :=
      recordAll_maxRequests _ _
    have hwin : (recordAll ⟨[], q, w⟩ times).windowMs = w :=
      recordAll_windowMs _ _
    have hfilter : times.filter (fun t => decide (now - t < w)) = times :=
      List.filter_eq_self.mpr (fun t ht => by simpa using hin t ht)
    simp [canMakeRequest, hreq, hmax, hwin, hfilter, hlen]
  · intro q w now times hq hin
    have hreq : (recordAll ⟨[], q, w⟩ times).requests = times := by
      simpa using recordAll_requests ⟨[], q, w⟩ times
    have hmax : (recordAll ⟨[], q, w⟩ times).maxRequests = q :=
      recordAll_maxRequests _ _
    have hwin : (recordAll ⟨[], q, w⟩ times).windowMs = w :=
      recordAll_windowMs _ _
    have hfilter : times.filter (fun t => decide (now - t < w)) = [] := by
      refine List.filter_eq_nil_iff.mpr (fun t ht => ?_)
      have := hin t ht
      simp
      omega
    simp [canMakeRequest, hreq, hmax, hwin, hfilter, hq]
  · intro rl now h
    simp [canMakeRequest, h]

/-- Witness for C5: quota 2 and window 60000 ms; two requests at 10 ms and
20 ms reject a third check at 30 ms; the check at 60030 ms is admitted again;
quota 0 rejects even with no recorded requests. -/
theorem rate_limiter_admission_witness :
    (canMakeRequest (recordAll ⟨[], 2, 60000⟩ [10, 20]) 30).1 = false ∧
    (canMakeRequest (recordAll ⟨[], 2, 60000⟩ [10, 20]) 60030).1 = true ∧
    (canMakeRequest ⟨[], 0, 60000⟩ 5).1 = false :=
  ⟨rate_limiter_admission.2.1 2 60000 30 [10, 20] rfl (by decide),
   rate_limiter_admission.2.2.1 2 60000 60030 [10, 20] (by decide) (by decide),
   rate_limiter_admission.2.2.2 ⟨[], 0, 60000⟩ 5 rfl⟩

/-! ## Claim about the recoverability classifier -/

/-- Claim C9: the classifier returns true for every connection error and every
timeout error; for a request error it returns true iff the lowercased message
includes "rate limit" (a rate-limit rejection — the exact message makeRequest
raises on rejection is classified recoverable) or one of the transient markers
"temporary" / "timeout"; it returns false for every other request error (such
as a downstream 500) and for plain non-gateway errors. -/
theorem isRecoverableError_classification :
    (∀ m, isRecoverableError (.connection m) = true) ∧
    (∀ m, isRecoverableError (.timeout m) = true) ∧
    (∀ m sc, isRecoverableError (.request m sc) = true ↔
       (strIncludes (lowerStr m) "rate limit" = true ∨
        strIncludes (lowerStr m) "temporary" = true ∨
        strIncludes (lowerStr m) "timeout" = true)) ∧
    (∀ m, isRecoverableError (.generic m) = false) ∧
    isRecoverableError
      (.request "Rate limit exceeded. Please try again later." none) = true ∧
    isRecoverableError
      (.request "MCP server request failed: 500 Internal Server Error" (some 500))
      = false := by
  refine ⟨fun m => rfl, fun m => rfl, fun m sc => ?_, fun m => rfl, ?_, ?_⟩
  · simp [isRecoverableError, Bool.or_eq_true, or_assoc]
  · decide
  · decide

/-! ## Claim about the transport error taxonomy -/

/-- Claim C6: with a session established, a non-2xx response raises a request
error carrying that status code; a response whose body carries a JSON-RPC
error field raises a request error carrying the server-supplied message; and
otherwise the result field of the body is returned verbatim. -/
theorem transport_error_taxonomy (sid : String) (r : JsonRpcResponse) :
    (r.ok = false →
      transportHttpRequest (some sid) (.response r) =
        .error (.request
          ("MCP server request failed: " ++ toString r.status ++ " " ++ r.statusText)
          (some r.status))) ∧
    (∀ m, r.ok = true → r.error = some (some m) → m ≠ "" →
      transportHttpRequest (some sid) (.response r) = .error (.request m none)) ∧
    (r.ok = true → r.error = none →
      transportHttpRequest (some sid) (.response r) = .ok r.result) := by
  refine ⟨fun hok => ?_, fun m hok herr hm => ?_, fun hok herr => ?_⟩
  · simp [transportHttpRequest, hok]
  · have hbeq : (m == "") = false := by simpa using hm
    simp [transportHttpRequest, hok, herr, jsonRpcErrorMessage, hbeq]
  · simp [transportHttpRequest, hok, herr]

/-- A downstream 500 response. -/
def resp500 : JsonRpcResponse := ⟨false, 500, "Internal Server Error", none, ""⟩

/-- A 200 response whose body carries a JSON-RPC error. -/
def respErr : JsonRpcResponse := ⟨true, 200, "OK", some (some "execution reverted"), ""⟩

/-- A 200 response with a result and no error field. -/
def respOk : JsonRpcResponse := ⟨true, 200, "OK", none, "0x2a"⟩

/-- Witness for C6: the downstream 500 surfaces as a request error with
status 500; a JSON-RPC error body surfaces its message; a clean body returns
its result verbatim. -/
theorem transport_error_taxonomy_witness :
    transportHttpRequest (some "http-session-1") (.response resp500) =
      .error (.request "MCP server request failed: 500 Internal Server Error"
        (some 500)) ∧
    transportHttpRequest (some "http-session-1") (.response respErr) =
      .error (.request "execution reverted" none) ∧
    transportHttpRequest (some "http-session-1") (.response respOk) = .ok "0x2a" :=
  ⟨(transport_error_taxonomy "http-session-1" resp500).1 rfl,
   (transport_error_taxonomy "http-session-1" respErr).2.1
     "execution reverted" rfl rfl (by decide),
   (transport_error_taxonomy "http-session-1" respOk).2.2 rfl rfl⟩

/-! ## Claims about connection establishment -/

theorem processCallers_joined (s : ConnState) (a : Nat)
    (hc : s.connected = false) (hs : s.connecting = some a) :
    ∀ (n fresh : Nat),
      processCallers s fresh n = (s, List.replicate n (.awaits a), 0) := by
  intro n
  induction n with
  | zero => intro fresh; simp [processCallers]
  | succ n ih =>
      intro fresh
      have hstep : ensureConnectedStep s fresh = (s, .awaits a, false) := by
        simp [ensureConnectedStep, hc, hs]
      simp [processCallers, hstep, ih, List.replicate_succ]

/-- Claim C3: when N callers arrive while the client is disconnected with no
attempt in flight, exactly one attempt (hence one liveness probe) is started;
every caller ends up awaiting that same attempt, and therefore every caller
observes the same connection outcome, whatever it resolves to. -/
theorem at_most_one_connect (s : ConnState) (fresh n : Nat)
    (hc : s.connected = false) (hp : s.connecting = none) (hn : 0 < n) :
    (processCallers s fresh n).2.2 = 1 ∧
    (∀ p ∈ (processCallers s fresh n).2.1, p = .awaits fresh) ∧
    (∀ env : Nat → Bool, ∀ p ∈ (processCallers s fresh n).2.1,
      observeOutcome env p = some (env fresh)) := by
  obtain ⟨m, rfl⟩ : ∃ m, n = m + 1 := ⟨n - 1, by omega⟩
  have hstep : ensureConnectedStep s fresh =
      ({ s with hasTransport := true, connecting := some fresh },
       .awaits fresh, true) := by
    simp [ensureConnectedStep, hc, hp]
  have hrest := processCallers_joined
    { s with hasTransport := true, connecting := some fresh } fresh
    (by simp [hc]) (by simp) m (fresh + 1)
  have hplans : (processCallers s fresh (m + 1)).2.1
      = ConnPlan.awaits fresh :: List.replicate m (.awaits fresh) := by
    simp [processCallers, hstep, hrest]
  refine ⟨by simp [processCallers, hstep, hrest], ?_, ?_⟩
  · intro p hmem
    rw [hplans] at hmem
    rcases List.mem_cons.mp hmem with h | h
    · exact h
    · exact List.eq_of_mem_replicate h
  · intro env p hmem
    rw [hplans] at hmem
    rcases List.mem_cons.mp hmem with h | h
    · rw [h]; rfl
    · rw [List.eq_of_mem_replicate h]; rfl

/-- Witness for C3: three concurrent callers on a fresh disconnected client
start exactly one attempt. -/
theorem at_most_one_connect_witness :
    (processCallers ⟨false, false, none⟩ 0 3).2.2 = 1 :=
  (at_most_one_connect ⟨false, false, none⟩ 0 3 rfl rfl (by decide)).1

/-- The client state after one ensureConnected call whose connection attempt
failed (the health probe rejected). -/
def failedOnceState : ConnState :=
  runAttempt (ensureConnectedStep ⟨false, false, none⟩ 0).1 false

/-- Claim C2 (code bug, evaluated at the failing input): after a failed
attempt the client is back to disconnected (connect()'s catch resets
connected and the transport), yet this.connecting still holds the stale
rejected attempt, because the assignment clearing it runs after the await
that threw; consequently the next ensureConnected call joins the stale
attempt 0 instead of starting a fresh handshake. -/
theorem connecting_not_cleared_on_failure :
    failedOnceState.connected = false ∧
    failedOnceState.hasTransport = false ∧
    failedOnceState.connecting = some 0 ∧
    (ensureConnectedStep failedOnceState 1).2.1 = .awaits 0 ∧
    (ensureConnectedStep failedOnceState 1).2.2 = false := by
  decide

/-! ## Claim about unsupported operations -/

/-- Claim C8 counterexample: the failure getWalletTransactions surfaces is a
plain untyped Error (the source has no UnsupportedOperationError class), so
it is not one of the three typed gateway error kinds — refuting the claim
that every surfaced failure is one of the three kinds. -/
theorem unsupported_op_error_untyped :
    (getWalletTransactions "0xA0b86991c6218b36c1d19D4a2e9Eb0cE3606eB48" "day").1
      = .error (.generic walletTxsUnsupportedMsg) ∧
    isTypedGatewayError (.generic walletTxsUnsupportedMsg) = false :=
  ⟨rfl, rfl⟩

/-- Claim C8 amended: the three unsupported operations fail fast with a
descriptive plain Error (its message says the feature is not yet implemented
and names an alternative) without performing any transport dispatch; these
errors are plain Errors, not one of the three typed gateway error kinds. -/
theorem unsupported_ops_fail_fast
    (address timeframe token dex period collection tokenId : String) :
    getWalletTransactions address timeframe
      = (.error (.generic walletTxsUnsupportedMsg), 0) ∧
    getTokenFlows token dex period
      = (.error (.generic tokenFlowsUnsupportedMsg), 0) ∧
    getNFTHistory collection tokenId
      = (.error (.generic nftHistoryUnsupportedMsg), 0) ∧
    strIncludes walletTxsUnsupportedMsg "not yet implemented" = true ∧
    strIncludes tokenFlowsUnsupportedMsg "not yet implemented" = true ∧
    strIncludes nftHistoryUnsupportedMsg "not yet implemented" = true ∧
    isTypedGatewayError (.generic walletTxsUnsupportedMsg) = false ∧
    isTypedGatewayError (.generic tokenFlowsUnsupportedMsg) = false ∧
    isTypedGatewayError (.generic nftHistoryUnsupportedMsg) = false := by
  refine ⟨rfl, rfl, rfl, ?_, ?_, ?_, rfl, rfl, rfl⟩ <;> decide

/-! ## Claim about read caching versus transfer dispatch -/

/-- Quota 60 per minute, TTL 30000 ms — the defaults of config.ts. -/
def demoCfg : RateConfig := ⟨60, 30000⟩

/-- A connected client with empty cache and no recorded requests. -/
def demoConnected : ClientState := ⟨[], [], true, true⟩

/-- First getWalletBalance call at 1000 ms. -/
def balanceCall1 :=
  getWalletBalance demoCfg demoConnected 1000 true (.ok "100 SEI") "0xabc" "sei"

/-- Identical getWalletBalance call at 2000 ms, well inside the 30000 ms TTL,
run on the state the first call produced. -/
def balanceCall2 :=
  getWalletBalance demoCfg balanceCall1.2.1 2000 true (.ok "100 SEI") "0xabc" "sei"

/-- Claim C1 counterexample: two identical getWalletBalance calls issued
within the cache TTL both dispatch to the transport — the second is not
served from the cache, because getWalletBalance passes no cache key to
makeRequest — so the two calls do not reach the transport only once. -/
theorem getBalance_second_call_hits_transport :
    balanceCall1.2.2 = 1 ∧ balanceCall2.2.2 = 1 ∧
    balanceCall1.2.2 + balanceCall2.2.2 ≠ 1 := by
  decide

/-- Claim C1 amended: on a connected client under quota, a getWalletBalance
call always dispatches to the transport (its wrapper supplies no cache key,
so reads are never served from the cache), exactly as a transferSei call
does; the caching path exists only inside makeRequest when a cache key is
supplied: then a second identical call within the TTL returns the cached
payload and performs no transport dispatch. -/
theorem reads_and_transfers_both_dispatch
    (cfg : RateConfig) (st : ClientState) (now now' : Nat)
    (address network toAddr amount k v : String)
    (trB trT trS : Except MCPError String) (cOk cOk' : Bool)
    (hconn : st.connected = true) (htrans : st.hasTransport = true)
    (hrate : (st.requests.filter (fun t => now - t < rateWindowMs)).length
      < cfg.maxRequestsPerMinute)
    (hmiss : cacheLookup st.cache k = none)
    (hv : v ≠ "")
    (httl : now' - now ≤ cfg.cacheTTL) :
    (getWalletBalance cfg st now cOk trB address network).2.2 = 1 ∧
    (transferSei cfg st now cOk trT toAddr amount network).2.2 = 1 ∧
    (makeRequest cfg (makeRequest cfg st now (some k) cOk (.ok v)).2.1
      now' (some k) cOk' trS).1 = .ok v ∧
    (makeRequest cfg (makeRequest cfg st now (some k) cOk (.ok v)).2.1
      now' (some k) cOk' trS).2.2 = 0 := by
  have hbase : ∀ (res : Except MCPError String),
      makeRequest cfg st now none cOk res =
        dispatchRequest
          { st with requests :=
              (st.requests.filter fun t => now - t < rateWindowMs) ++ [now] }
          none now res := by
    intro res
    simp [makeRequest, hrate, hconn, htrans]
  have hfirst : makeRequest cfg st now (some k) cOk (.ok v) =
      (.ok v,
       { st with
          requests := (st.requests.filter fun t => now - t < rateWindowMs) ++ [now],
          cache := setCachedData st.cache k v now }, 1) := by
    simp [makeRequest, getCachedData, hmiss, hrate, hconn, htrans, dispatchRequest]
  have hlook : cacheLookup (setCachedData st.cache k v now) k = some ⟨v, now⟩ :=
    cacheLookup_setCachedData st.cache k v now
  have hexp : ¬ (now' - now > cfg.cacheTTL) := by omega
  have hhit : truthyStr v = true := by simpa [truthyStr] using hv
  refine ⟨?_, ?_, ?_, ?_⟩
  · show (makeRequest cfg st now none cOk trB).2.2 = 1
    rw [hbase trB, dispatchRequest_count]
  · show (makeRequest cfg st now none cOk trT).2.2 = 1
    rw [hbase trT, dispatchRequest_count]
  · rw [hfirst]
    simp [makeRequest, getCachedData, hlook, hexp, hhit]
  · rw [hfirst]
    simp [makeRequest, getCachedData, hlook, hexp, hhit]

/-- Witness for the amended C1 theorem at the default configuration. -/
theorem reads_and_transfers_both_dispatch_witness :
    (getWalletBalance demoCfg demoConnected 1000 true (.ok "100 SEI")
      "0xabc" "sei").2.2 = 1 ∧
    (transferSei demoCfg demoConnected 1000 true (.ok "0xtxhash")
      "0xdef" "5" "sei").2.2 = 1 ∧
    (makeRequest demoCfg
      (makeRequest demoCfg demoConnected 1000 (some "bal") true (.ok "100")).2.1
      2000 (some "bal") true (.error (.timeout "late"))).1 = .ok "100" ∧
    (makeRequest demoCfg
      (makeRequest demoCfg demoConnected 1000 (some "bal") true (.ok "100")).2.1
      2000 (some "bal") true (.error (.timeout "late"))).2.2 = 0 :=
  reads_and_transfers_both_dispatch demoCfg demoConnected 1000 2000
    "0xabc" "sei" "0xdef" "5" "bal" "100"
    (.ok "100 SEI") (.ok "0xtxhash") (.error (.timeout "late")) true true
    rfl rfl (by decide) rfl (by decide) (by decide)

/-! ## Claim about wallet-address extraction -/

/-- A 0x-style address: 0x followed by forty hex digits. -/
def hexAddrChars : List Char := '0' :: 'x' :: List.replicate 40 'a'

/-- A bech32-style address: sei1 followed by forty class characters. -/
def seiAddrChars : List Char :=
  's' :: 'e' :: 'i' :: '1' :: List.replicate 40 'q'

/-- The 0x-style address as a string. -/
def hexAddr : String := String.mk hexAddrChars

/-- The bech32-style address as a string. -/
def seiAddr : String := String.mk seiAddrChars

/-- A query containing both address shapes, the 0x one appearing first. -/
def mixedQuery : String := "balance of " ++ hexAddr ++ " and " ++ seiAddr

/-- Claim C7 counterexample: on an input containing both a 0x-style and a
sei1-style address, extractWalletAddress yields the sei1 address, not the
hex address — the source checks the sei1 pattern first. -/
theorem extractWalletAddress_prefers_sei :
    extractWalletAddress mixedQuery = some seiAddr ∧
    (some seiAddr : Option String) ≠ some hexAddr := by
  refine ⟨?_, by decide⟩
  decide

/-- Claim C7 amended: extractWalletAddress matches the two mutually exclusive
address shapes with the bech32 (sei1) pattern checked first, first match
wins: whenever the sei1 search succeeds its match is returned regardless of
any 0x match; only when it fails is the 0x search's answer returned; and when
neither matches the not-found value is returned (the function is total — it
never throws). -/
theorem extractWalletAddress_priority (q : String) :
    (∀ m, scanMatch seiAttempt q.toList = some m →
      extractWalletAddress q = some (String.mk m)) ∧
    (scanMatch seiAttempt q.toList = none →
      extractWalletAddress q = (scanMatch evmAttempt q.toList).map String.mk) ∧
    (scanMatch seiAttempt q.toList = none → scanMatch evmAttempt q.toList = none →
      extractWalletAddress q = none) := by
  refine ⟨fun m hm => ?_, fun hs => ?_, fun hs he => ?_⟩
  · have hm' : scanMatch seiAttempt q.data = some m := hm
    simp [extractWalletAddress, hm']
  · have hs' : scanMatch seiAttempt q.data = none := hs
    cases he : scanMatch evmAttempt q.data <;>
      simp [extractWalletAddress, hs', he]
  · have hs' : scanMatch seiAttempt q.data = none := hs
    have he' : scanMatch evmAttempt q.data = none := he
    simp [extractWalletAddress, hs', he']

/-- Witness for the amended C7 theorem: the mixed query yields the sei1
address; the spec's own example query yields its sei1 address; a query with
no recognizable address yields the not-found value. -/
theorem extractWalletAddress_priority_witness :
    extractWalletAddress mixedQuery = some (String.mk seiAddrChars) ∧
    extractWalletAddress ("balance of " ++ seiAddr) = some (String.mk seiAddrChars) ∧
    extractWalletAddress "no recognizable address" = none :=
  ⟨(extractWalletAddress_priority mixedQuery).1 seiAddrChars (by decide),
   (extractWalletAddress_priority ("balance of " ++ seiAddr)).1 seiAddrChars
     (by decide),
   (extractWalletAddress_priority "no recognizable address").2.2
     (by decide) (by decide)⟩

end SeiSorcerer

